import Mathlib

/-!
Shallow embedding of the plot/axis command-compilation engine of
`src/axes_common.rs` (RustGnuplot).

Modelling conventions, used consistently below:

* `f64` values that appear in textual directives are modelled as exact
  rationals (`ℚ`); the concrete values exercised by the claims (0, -1, 2,
  0.5, ...) are all exactly representable as doubles, and the comparisons
  performed by the source (`incr <= 0.0`, `x1 > x2`, `x >= old_x`) agree
  with the rational comparisons on such values.
* `f64` values written into the binary payload are modelled by `Dbl`,
  which is either a finite value (a rational) or the NaN used by
  `plot_matrix` for padding.  `PlotWriter::write_data` appends one `Dbl`.
* A growable text buffer (`Vec<u8>` used via `write!`) is modelled as a
  list of `Chunk`s.  Each `write!`/`write_str` call appends its literal
  text as `Chunk.str` pieces and each formatted floating-point argument
  as `Chunk.e12` (for the `{:.12e}` format specifier) or `Chunk.disp`
  (for the plain `{}` Display format); integer arguments are rendered
  with `toString`, which is exact.  Because every buffer in the source is
  written append-only inside one call, a source method that writes into a
  caller-supplied buffer is modelled as a function returning the list of
  chunks it appends.
* Rust `panic!`/`assert!` failures are modelled as `Except.error`; the
  machine integers involved (`u32`, `i32`, `usize`) stay far from their
  wrap-around range in every claim, so they are modelled as `ℕ`/`ℤ`.
* The `first_opt!` macro (scan an option slice, fire on the first entry
  matching the pattern) is modelled by `firstOpt` applied to a selector
  function for the option kind.
-/

namespace RustGnuplot

/-- A double in a binary payload: a finite value modelled exactly, or NaN. -/
inductive Dbl where
  | val (q : ℚ)
  | nan
  deriving DecidableEq

/-- One piece of text output.  `str` is literal text, `e12` is a float
written with the `{:.12e}` format, `disp` is a float written with the plain
`{}` Display format. -/
inductive Chunk where
  | str (s : String)
  | e12 (v : ℚ)
  | disp (v : ℚ)
  deriving DecidableEq

/-- A text buffer, as the sequence of chunks written into it. -/
abbrev Buf := List Chunk

/-- `AutoOption` from `options.rs`: an explicitly fixed value or `Auto`. -/
inductive AutoOption (α : Type) where
  | Fix (v : α)
  | Auto
  deriving DecidableEq

/-- `TickAxis` (src lines 150-156). -/
inductive TickAxis where
  | XTickAxis
  | YTickAxis
  | ZTickAxis
  | CBTickAxis
  deriving DecidableEq

/-- `TickAxis::to_axis_str` (src lines 160-169). -/
def TickAxis.to_axis_str : TickAxis → String
  | .XTickAxis => "x"
  | .YTickAxis => "y"
  | .ZTickAxis => "z"
  | .CBTickAxis => "cb"

/-- `TickAxis::to_tick_str` (src lines 171-180). -/
def TickAxis.to_tick_str : TickAxis → String
  | .XTickAxis => "xtics"
  | .YTickAxis => "ytics"
  | .ZTickAxis => "ztics"
  | .CBTickAxis => "cbtics"

/-- `TickAxis::to_range_str` (src lines 182-191). -/
def TickAxis.to_range_str : TickAxis → String
  | .XTickAxis => "xrange"
  | .YTickAxis => "yrange"
  | .ZTickAxis => "zrange"
  | .CBTickAxis => "cbrange"

/-- `LabelType` (src lines 44-53).  The two coordinates of a free-standing
label are opaque to this file and modelled by their rendered text. -/
inductive LabelType where
  | XLabel
  | YLabel
  | ZLabel
  | CBLabel
  | TitleLabel
  | Label (x y : String)
  | AxesTicks
  deriving DecidableEq

/-- `LabelType::is_label` (src lines 57-64). -/
def LabelType.is_label : LabelType → Bool
  | .Label _ _ => true
  | _ => false

/-- Horizontal alignment values from `options.rs`. -/
inductive Align where
  | AlignLeft
  | AlignRight
  | AlignCenter
  deriving DecidableEq

/-- The `LabelOption` variants consumed by `write_out_label_options`.
The second `Font` field is the font size, formatted by the source with
the plain Display format. -/
inductive LabelOption where
  | TextOffset (x y : ℚ)
  | TextColor (s : String)
  | Font (f : String) (s : ℚ)
  | Rotate (a : ℚ)
  | MarkerSymbol (c : Char)
  | MarkerColor (s : String)
  | MarkerSize (z : ℚ)
  | TextAlign (a : Align)
  deriving DecidableEq

/-- The `TickOption` variants consumed by `set_ticks_options`. -/
inductive TickOption where
  | OnAxis (b : Bool)
  | Mirror (b : Bool)
  | Inward (b : Bool)
  | MinorScale (s : ℚ)
  | MajorScale (s : ℚ)
  deriving DecidableEq

/-- Fill-region variants from `options.rs`. -/
inductive FillRegionType where
  | Above
  | Below
  | Between
  deriving DecidableEq

/-- The `PlotOption` variants consumed by `write_common_commands` and its
helpers.  `LineStyle` carries the integer produced by `DashType::to_int`
(the `DashType` enumeration itself lives outside this file). -/
inductive PlotOption where
  | LineWidth (w : ℚ)
  | LineStyle (d : ℤ)
  | Color (s : String)
  | BorderColor (s : String)
  | Caption (s : String)
  | PointSymbol (c : Char)
  | PointSize (z : ℚ)
  | FillAlpha (a : ℚ)
  | FillRegion (d : FillRegionType)
  deriving DecidableEq

/-- Model of the `first_opt!` macro: scan the option list in order and
return the payload of the first entry the selector matches; later matches
and non-matching entries are ignored. -/
def firstOpt {α β : Type} (options : List α) (sel : α → Option β) : Option β :=
  match options with
  | [] => none
  | o :: rest =>
    match sel o with
    | some b => some b
    | none => firstOpt rest sel

/-- Selector for `TextOffset(x, y)`. -/
def textOffsetSel (o : LabelOption) : Option (ℚ × ℚ) :=
  match o with
  | .TextOffset x y => some (x, y)
  | _ => none

/-- Selector for `TextColor(s)`. -/
def textColorSel (o : LabelOption) : Option String :=
  match o with
  | .TextColor s => some s
  | _ => none

/-- Selector for `Font(f, s)`. -/
def fontSel (o : LabelOption) : Option (String × ℚ) :=
  match o with
  | .Font f s => some (f, s)
  | _ => none

/-- Selector for `Rotate(a)`. -/
def rotateSel (o : LabelOption) : Option ℚ :=
  match o with
  | .Rotate a => some a
  | _ => none

/-- Selector for `MarkerSymbol(c)`. -/
def markerSymbolSel (o : LabelOption) : Option Char :=
  match o with
  | .MarkerSymbol c => some c
  | _ => none

/-- Selector for `MarkerColor(s)`. -/
def markerColorSel (o : LabelOption) : Option String :=
  match o with
  | .MarkerColor s => some s
  | _ => none

/-- Selector for `MarkerSize(z)`. -/
def markerSizeSel (o : LabelOption) : Option ℚ :=
  match o with
  | .MarkerSize z => some z
  | _ => none

/-- Selector for `TextAlign(a)`. -/
def textAlignSel (o : LabelOption) : Option Align :=
  match o with
  | .TextAlign a => some a
  | _ => none

/-- Selector for `OnAxis(b)`. -/
def onAxisSel (o : TickOption) : Option Bool :=
  match o with
  | .OnAxis b => some b
  | _ => none

/-- Selector for `Mirror(b)`. -/
def mirrorSel (o : TickOption) : Option Bool :=
  match o with
  | .Mirror b => some b
  | _ => none

/-- Selector for `Inward(b)`. -/
def inwardSel (o : TickOption) : Option Bool :=
  match o with
  | .Inward b => some b
  | _ => none

/-- Selector for `MinorScale(s)`. -/
def minorScaleSel (o : TickOption) : Option ℚ :=
  match o with
  | .MinorScale s => some s
  | _ => none

/-- Selector for `MajorScale(s)`. -/
def majorScaleSel (o : TickOption) : Option ℚ :=
  match o with
  | .MajorScale s => some s
  | _ => none

/-- Selector for `LineWidth(w)`. -/
def lineWidthSel (o : PlotOption) : Option ℚ :=
  match o with
  | .LineWidth w => some w
  | _ => none

/-- Selector for `LineStyle(d)`. -/
def lineStyleSel (o : PlotOption) : Option ℤ :=
  match o with
  | .LineStyle d => some d
  | _ => none

/-- Selector for `Color(s)`. -/
def colorSel (o : PlotOption) : Option String :=
  match o with
  | .Color s => some s
  | _ => none

/-- Selector for `BorderColor(s)`. -/
def borderColorSel (o : PlotOption) : Option String :=
  match o with
  | .BorderColor s => some s
  | _ => none

/-- Selector for `Caption(s)`. -/
def captionSel (o : PlotOption) : Option String :=
  match o with
  | .Caption s => some s
  | _ => none

/-- Selector for `PointSymbol(c)`. -/
def pointSymbolSel (o : PlotOption) : Option Char :=
  match o with
  | .PointSymbol c => some c
  | _ => none

/-- Selector for `PointSize(z)`. -/
def pointSizeSel (o : PlotOption) : Option ℚ :=
  match o with
  | .PointSize z => some z
  | _ => none

/-- Selector for `FillAlpha(a)`. -/
def fillAlphaSel (o : PlotOption) : Option ℚ :=
  match o with
  | .FillAlpha a => some a
  | _ => none

/-- Selector for `FillRegion(d)`. -/
def fillRegionSel (o : PlotOption) : Option FillRegionType :=
  match o with
  | .FillRegion d => some d
  | _ => none

/-- Discriminates `Except.ok` results (a Rust call that did not panic). -/
def okB {ε α : Type} : Except ε α → Bool
  | .ok _ => true
  | .error _ => false

/-- `char_to_symbol` (src lines 507-527): closed table from marker
characters to gnuplot point-type indices, panicking on anything else. -/
def char_to_symbol (c : Char) : Except String ℤ :=
  if c = '.' then .ok 0
  else if c = '+' then .ok 1
  else if c = 'x' then .ok 2
  else if c = '*' then .ok 3
  else if c = 's' then .ok 4
  else if c = 'S' then .ok 5
  else if c = 'o' then .ok 6
  else if c = 'O' then .ok 7
  else if c = 't' then .ok 8
  else if c = 'T' then .ok 9
  else if c = 'd' then .ok 10
  else if c = 'D' then .ok 11
  else if c = 'r' then .ok 12
  else if c = 'R' then .ok 13
  else .error ("Invalid symbol " ++ toString c)

/-- 10^e over the natural numbers. -/
def pow10 : ℕ → ℕ
  | 0 => 1
  | e + 1 => 10 * pow10 e

/-- Fuel-driven computation of the decimal exponent of the positive
rational n/d: the integer k with d * 10^k ≤ n < d * 10^(k+1). -/
def decExpAux : ℕ → ℕ → ℕ → ℤ
  | 0, _, _ => 0
  | fuel + 1, n, d =>
    if n < d then decExpAux fuel (n * 10) d - 1
    else if 10 * d ≤ n then decExpAux fuel n (d * 10) + 1
    else 0

/-- Decimal exponent of the positive rational n/d (700 units of fuel
cover the entire double range with a wide margin). -/
def decExp (n d : ℕ) : ℤ := decExpAux 700 n d

/-- Insert the decimal point after the first digit of a mantissa string. -/
def mantissaString (n : ℕ) : String :=
  let s := toString n
  String.mk (s.toList.take 1) ++ "." ++ String.mk (s.toList.drop 1)

/-- Core of the `{:.12e}` rendering, over an exact fraction num/den. -/
def fmtE12core (num : ℤ) (den : ℕ) : String :=
  if num = 0 then "0.000000000000e0"
  else
    let sign := if num < 0 then "-" else ""
    let n := num.natAbs
    let k := decExp n den
    let p : ℕ × ℕ := if k ≤ 12 then (n * pow10 (12 - k).toNat, den)
      else (n, den * pow10 (k - 12).toNat)
    let m := (2 * p.1 + p.2) / (2 * p.2)
    let r : ℕ × ℤ := if pow10 13 ≤ m then (m / 10, k + 1) else (m, k)
    sign ++ mantissaString r.1 ++ "e" ++ toString r.2

/-- Rendering of the `{:.12e}` format for an exact rational: lowercase
scientific notation, one leading digit, 12 fractional digits (the scaled
mantissa is rounded; the values this file evaluates it at have an exact
12-digit mantissa, so the rounding mode is immaterial), and the exponent
printed without padding or a plus sign. -/
def fmtE12 (q : ℚ) : String := fmtE12core q.num q.den


/-- `write_out_label_options` (src lines 67-148), as the chunks appended
to the writer.  The marker clause runs `char_to_symbol`, which panics on
an invalid symbol character; that failure propagates as `Except.error`. -/
def write_out_label_options (label_type : LabelType) (options : List LabelOption) :
    Except String Buf :=
  let w : Buf :=
    match label_type with
    | .Label x y => [Chunk.str " at ", Chunk.str x, Chunk.str ",", Chunk.str y, Chunk.str " front"]
    | _ => []
  let w := w ++
    match firstOpt options textOffsetSel with
    | some p => [Chunk.str " offset character ", Chunk.e12 p.1, Chunk.str ",", Chunk.e12 p.2]
    | none => []
  let w := w ++
    match firstOpt options textColorSel with
    | some s => [Chunk.str " tc rgb \"", Chunk.str s, Chunk.str "\""]
    | none => []
  let w := w ++
    match firstOpt options fontSel with
    | some p => [Chunk.str " font \"", Chunk.str p.1, Chunk.str ",", Chunk.disp p.2, Chunk.str "\""]
    | none => []
  let w := w ++
    match firstOpt options rotateSel with
    | some a => [Chunk.str " rotate by ", Chunk.e12 a]
    | none => []
  if label_type.is_label then
    match
      (match firstOpt options markerSymbolSel with
       | some s =>
         Except.map (fun n => (([Chunk.str " point pt ", Chunk.str (toString n)] : Buf), true))
           (char_to_symbol s)
       | none => .ok (([] : Buf), false)) with
    | .error e => .error e
    | .ok pr =>
      let w := w ++ pr.1
      let w := w ++
        (if pr.2 then
          (match firstOpt options markerColorSel with
           | some s => [Chunk.str " lc rgb \"", Chunk.str s, Chunk.str "\""]
           | none => [])
          ++
          (match firstOpt options markerSizeSel with
           | some z => [Chunk.str " ps ", Chunk.e12 z]
           | none => [])
        else [])
      let w := w ++
        match firstOpt options textAlignSel with
        | some a =>
          [Chunk.str
            (match a with
             | .AlignLeft => " left"
             | .AlignRight => " right"
             | _ => " center")]
        | none => []
      .ok w
  else
    .ok w

/-- `AxisData::set_ticks_options` (src lines 382-438), as the chunks
appended to the tick buffer: shared label options for `AxesTicks`, then
the three placement flags, then the scale clause with both scale factors
defaulting to 0.5. -/
def set_ticks_options (tick_options : List TickOption) (label_options : List LabelOption) :
    Except String Buf :=
  match write_out_label_options .AxesTicks label_options with
  | .error e => .error e
  | .ok c0 =>
    let c := c0 ++
      match firstOpt tick_options onAxisSel with
      | some b => [Chunk.str (if b then " axis" else " border")]
      | none => []
    let c := c ++
      match firstOpt tick_options mirrorSel with
      | some b => [Chunk.str (if b then " mirror" else " nomirror")]
      | none => []
    let c := c ++
      match firstOpt tick_options inwardSel with
      | some b => [Chunk.str (if b then " in" else " out")]
      | none => []
    let minor_scale := (firstOpt tick_options minorScaleSel).getD (1/2)
    let major_scale := (firstOpt tick_options majorScaleSel).getD (1/2)
    .ok (c ++ [Chunk.str " scale ", Chunk.e12 minor_scale, Chunk.str ",", Chunk.e12 major_scale])

/-- `AxisData` (src lines 245-253). -/
structure AxisData where
  ticks_buf : Buf
  log_base : Option ℚ
  mticks : ℤ
  axis : TickAxis
  min : AutoOption ℚ
  max : AutoOption ℚ
  deriving DecidableEq

/-- `AxisData::new` (src lines 257-268). -/
def AxisData.new (axis : TickAxis) : AxisData :=
  { ticks_buf := []
    log_base := none
    mticks := 0
    axis := axis
    min := .Auto
    max := .Auto }

/-- `AxisData::write_out_commands` (src lines 270-325), as the chunks
written to the supplied writer: log-scale toggle, minor-tick directive,
range directive, then the pre-rendered tick buffer verbatim. -/
def AxisData.write_out_commands (a : AxisData) : Buf :=
  let w : Buf :=
    match a.log_base with
    | some base => [Chunk.str "set logscale ", Chunk.str a.axis.to_axis_str,
        Chunk.str " ", Chunk.e12 base]
    | none => [Chunk.str "unset logscale ", Chunk.str a.axis.to_axis_str]
  let log := match a.log_base with
    | some _ => true
    | none => false
  let w := w ++ [Chunk.str "\n"]
  let w := w ++
    (if a.mticks > 0 then
      [Chunk.str "set m", Chunk.str a.axis.to_tick_str, Chunk.str " "]
      ++ (if log then [Chunk.str "default", Chunk.str "\n"]
          else [Chunk.str (toString (a.mticks + 1)), Chunk.str "\n"])
    else [Chunk.str "unset m", Chunk.str a.axis.to_tick_str, Chunk.str "\n"])
  let w := w ++ [Chunk.str "\n", Chunk.str "set ", Chunk.str a.axis.to_range_str, Chunk.str " ["]
  let w := w ++
    (match a.min with
     | .Fix v => [Chunk.e12 v]
     | .Auto => [Chunk.str "*"])
  let w := w ++ [Chunk.str ":"]
  let w := w ++
    (match a.max with
     | .Fix v => [Chunk.e12 v]
     | .Auto => [Chunk.str "*"])
  let w := w ++ [Chunk.str "]\n"]
  w ++ a.ticks_buf

/-- `AxisData::set_ticks` (src lines 440-481).  The `Fix` increment is
validated: the source panics when `incr <= 0.0`. -/
def AxisData.set_ticks (a : AxisData) (tick_placement : Option (AutoOption ℚ × ℕ))
    (tick_options : List TickOption) (label_options : List LabelOption) :
    Except String AxisData :=
  match tick_placement with
  | some (incr, mticks) =>
    let buf : Buf := [Chunk.str "set ", Chunk.str a.axis.to_tick_str]
    match
      ((match incr with
       | .Auto => .ok (buf ++ [Chunk.str " autofreq"])
       | .Fix incr =>
         if incr ≤ 0 then .error "incr must be positive"
         else .ok (buf ++ [Chunk.str " ", Chunk.str " ", Chunk.e12 incr])) :
        Except String Buf) with
    | .error e => .error e
    | .ok buf =>
      match set_ticks_options tick_options label_options with
      | .error e => .error e
      | .ok oc =>
        .ok { a with ticks_buf := buf ++ oc ++ [Chunk.str "\n"], mticks := (mticks : ℤ) }
  | none =>
    .ok { a with
      ticks_buf := [Chunk.str "unset ", Chunk.str a.axis.to_tick_str, Chunk.str "\n"]
      mticks := 0 }

/-- A custom tick entry (`Tick` from `datatype.rs`): a minor gridline at a
position, or a major tick with an optional label. -/
inductive Tick where
  | Minor (pos : ℚ)
  | Major (pos : ℚ) (label : AutoOption String)
  deriving DecidableEq

/-- The tick-list loop of `set_ticks_custom` (src lines 339-375): emits a
comma-joined sequence of optional quoted label, position, and level
(0 for major ticks, 1 for minor ones). -/
def ticks_list_out : List Tick → Bool → Buf
  | [], _ => []
  | tick :: rest, first =>
    (if first then [] else [Chunk.str ","])
    ++
    (match tick with
     | .Minor pos => [Chunk.e12 pos, Chunk.str " ", Chunk.str "1"]
     | .Major pos label =>
       (match label with
        | .Fix l => [Chunk.str "\"", Chunk.str l, Chunk.str "\" "]
        | .Auto => [])
       ++ [Chunk.e12 pos, Chunk.str " ", Chunk.str "0"])
    ++ ticks_list_out rest false

/-- `AxisData::set_ticks_custom` (src lines 327-380): regenerates the
tick buffer with the explicit tick list and forces the minor-tick count
to 0. -/
def AxisData.set_ticks_custom (a : AxisData) (ticks : List Tick)
    (tick_options : List TickOption) (label_options : List LabelOption) :
    Except String AxisData :=
  match set_ticks_options tick_options label_options with
  | .error e => .error e
  | .ok oc =>
    .ok { a with
      mticks := 0
      ticks_buf := [Chunk.str "set ", Chunk.str a.axis.to_tick_str, Chunk.str " ("]
        ++ ticks_list_out ticks true ++ [Chunk.str ")"] ++ oc ++ [Chunk.str "\n"] }

/-- `AxisData::set_range` (src lines 483-487). -/
def AxisData.set_range (a : AxisData) (mn mx : AutoOption ℚ) : AxisData :=
  { a with min := mn, max := mx }

/-- `AxisData::set_log` (src lines 489-492). -/
def AxisData.set_log (a : AxisData) (base : Option ℚ) : AxisData :=
  { a with log_base := base }

/-- `PlotType` (src lines 194-205). -/
inductive PlotType where
  | Lines
  | Points
  | LinesPoints
  | XErrorLines
  | YErrorLines
  | FillBetween
  | Boxes
  | Pm3D
  | Image
  deriving DecidableEq

/-- `PlotType::is_line` (src lines 209-220). -/
def PlotType.is_line : PlotType → Bool
  | .Lines | .LinesPoints | .XErrorLines | .Boxes | .YErrorLines => true
  | _ => false

/-- `PlotType::is_points` (src lines 222-232). -/
def PlotType.is_points : PlotType → Bool
  | .Points | .LinesPoints | .XErrorLines | .YErrorLines => true
  | _ => false

/-- `PlotType::is_fill` (src lines 234-242). -/
def PlotType.is_fill : PlotType → Bool
  | .Boxes | .FillBetween => true
  | _ => false

/-- The `with <mode-name>` table of `write_common_commands`
(src lines 753-764). -/
def plot_type_str : PlotType → String
  | .Lines => "lines"
  | .Points => "points"
  | .LinesPoints => "linespoints"
  | .XErrorLines => "xerrorlines"
  | .YErrorLines => "yerrorlines"
  | .FillBetween => "filledcurves"
  | .Boxes => "boxes"
  | .Pm3D => "pm3d"
  | .Image => "image"

/-- `DataSourceType` (src lines 529-534). -/
inductive DataSourceType where
  | Record
  | Array
  | SizedArray (x1 y1 x2 y2 : ℚ)
  deriving DecidableEq

/-- `PlotElement` (src lines 25-29): the directive fragment and the
binary payload of one plotted series. -/
structure PlotElement where
  args : Buf
  data : List Dbl
  deriving DecidableEq

/-- `AxesCommonData` (src lines 495-505). -/
structure AxesCommonData where
  commands : Buf
  elems : List PlotElement
  grid_rows : ℕ
  grid_cols : ℕ
  grid_pos : Option ℕ
  x_axis : AxisData
  y_axis : AxisData
  cb_axis : AxisData
  deriving DecidableEq

/-- `AxesCommonData::new` (src lines 538-551). -/
def AxesCommonData.new : AxesCommonData :=
  { commands := []
    elems := []
    grid_rows := 0
    grid_cols := 0
    grid_pos := none
    x_axis := AxisData.new .XTickAxis
    y_axis := AxisData.new .YTickAxis
    cb_axis := AxisData.new .CBTickAxis }

/-- `AxesCommonData::write_line_options` (src lines 553-582): `lw` with
the resolved line width (default literal 1), then `lt` with the resolved
dash-style integer (default literal 1), appended to the writer `c`. -/
def write_line_options (c : Buf) (options : List PlotOption) : Buf :=
  let c := c ++ [Chunk.str " lw "]
  let c :=
    match firstOpt options lineWidthSel with
    | some w => c ++ [Chunk.e12 w]
    | none => c ++ [Chunk.str "1"]
  let c := c ++ [Chunk.str " lt "]
  match firstOpt options lineStyleSel with
  | some d => c ++ [Chunk.str (toString d)]
  | none => c ++ [Chunk.str "1"]

/-- `AxesCommonData::write_color_options` (src lines 584-601): the
resolved color, falling back to the caller-supplied default; nothing is
written when both are absent. -/
def write_color_options (c : Buf) (options : List PlotOption) (default : Option String) : Buf :=
  let col :=
    match firstOpt options colorSel with
    | some s => some s
    | none => default
  match col with
  | some s => c ++ [Chunk.str " lc rgb \"", Chunk.str s, Chunk.str "\""]
  | none => c

/-- The `using` column loop of `write_common_commands` (src lines
688-697): writes `1:2:...:num_cols` starting from `col_idx`.  The first
fuel argument makes the recursion structural; `using_cols` supplies
enough fuel for the whole loop. -/
def using_cols_loop : ℕ → ℕ → ℕ → Buf
  | 0, _, _ => []
  | fuel + 1, col_idx, num_cols =>
    if col_idx < num_cols + 1 then
      [Chunk.str (toString col_idx)]
      ++ (if col_idx < num_cols then [Chunk.str ":"] else [])
      ++ using_cols_loop fuel (col_idx + 1) num_cols
    else []

/-- The full `using` clause `1:2:...:num_cols`. -/
def using_cols (num_cols : ℕ) : Buf := using_cols_loop (num_cols + 1) 1 num_cols

/-- The source-type clause of `write_common_commands` (src lines
682-750): the Record form with `record=` and a `using` list, or the
array form with `array=(cols,rows)` plus, for `SizedArray`, the origin
(with a third 0 coordinate exactly when `is_3d`) and the per-axis
spacings with bound swapping and the `cols <= 1` / `rows <= 1`
fallback to literal spacing 1. -/
def source_type_clause (source_type : DataSourceType) (num_rows num_cols : ℕ)
    (is_3d : Bool) : Buf :=
  match source_type with
  | .Record =>
    [Chunk.str " \"-\" binary endian=little record=", Chunk.str (toString num_rows),
     Chunk.str " format=\"%float64\" using "]
    ++ using_cols num_cols
  | _ =>
    [Chunk.str " \"-\" binary endian=little array=(", Chunk.str (toString num_cols),
     Chunk.str ",", Chunk.str (toString num_rows), Chunk.str ") format=\"%float64\" "]
    ++
    match source_type with
    | .SizedArray x1 y1 x2 y2 =>
      let px := if x1 > x2 then (x2, x1) else (x1, x2)
      let py := if y1 > y2 then (y2, y1) else (y1, y2)
      [Chunk.str "origin=(", Chunk.e12 px.1, Chunk.str ",", Chunk.e12 py.1]
      ++ (if is_3d then [Chunk.str ",0"] else [])
      ++ [Chunk.str ") "]
      ++ (if num_cols > 1 then
            [Chunk.str "dx=", Chunk.e12 ((px.2 - px.1) / ((num_cols : ℚ) - 1)), Chunk.str " "]
          else [Chunk.str "dx=1 "])
      ++ (if num_rows > 1 then
            [Chunk.str "dy=", Chunk.e12 ((py.2 - py.1) / ((num_rows : ℚ) - 1)), Chunk.str " "]
          else [Chunk.str "dy=1 "])
    | _ => []

/-- The fill clause of `write_common_commands` (src lines 767-817), as
the chunks appended: fill-region resolution (FillBetween only, default
`closed`), the `fill transparent solid` text with the resolved alpha,
and the border clause. -/
def fill_clause (plot_type : PlotType) (options : List PlotOption) : Buf :=
  if plot_type.is_fill then
    (match plot_type with
     | .FillBetween =>
       (match firstOpt options fillRegionSel with
        | some d =>
          [Chunk.str
            (match d with
             | .Above => " above"
             | .Below => " below"
             | .Between => " closed")]
        | none => [Chunk.str " closed"])
     | _ => [])
    ++ [Chunk.str " fill transparent solid "]
    ++ (match firstOpt options fillAlphaSel with
        | some a => [Chunk.e12 a]
        | none => [])
    ++ (if plot_type.is_line then
          [Chunk.str " border"]
          ++ (match firstOpt options borderColorSel with
              | some s => [Chunk.str " rgb \"", Chunk.str s, Chunk.str "\""]
              | none => [])
        else [Chunk.str " noborder"])
  else []

/-- The point clause of `write_common_commands` (src lines 824-839), as
the chunks appended: the resolved point symbol (via `char_to_symbol`,
which panics on an invalid character) and the resolved point size.  The
point size is written with the plain `{}` Display format in the source. -/
def point_clause (plot_type : PlotType) (options : List PlotOption) : Except String Buf :=
  if plot_type.is_points then
    match
      ((match firstOpt options pointSymbolSel with
        | some s =>
          Except.map (fun n => ([Chunk.str " pt ", Chunk.str (toString n)] : Buf))
            (char_to_symbol s)
        | none => .ok []) : Except String Buf) with
    | .error e => .error e
    | .ok pc =>
      match firstOpt options pointSizeSel with
      | some z => .ok (pc ++ [Chunk.str " ps ", Chunk.disp z])
      | none => .ok pc
  else .ok []

/-- `AxesCommonData::write_common_commands` (src lines 678-851), as the
directive fragment written into `elems[elem_idx].args` (here threaded as
`args`): source-type clause, `with` mode, fill clause, line decorations,
point decorations, color clause, caption clause. -/
def write_common_commands (args : Buf) (num_rows num_cols : ℕ) (plot_type : PlotType)
    (source_type : DataSourceType) (is_3d : Bool) (options : List PlotOption) :
    Except String Buf :=
  let args := args ++ source_type_clause source_type num_rows num_cols is_3d
  let args := args ++ [Chunk.str " with "]
  let args := args ++ [Chunk.str (plot_type_str plot_type)]
  let args := args ++ fill_clause plot_type options
  let args := if plot_type.is_line then write_line_options args options else args
  match point_clause plot_type options with
  | .error e => .error e
  | .ok pc =>
    let args := args ++ pc
    let args := write_color_options args options none
    let args := args ++ [Chunk.str " t \""]
    let args :=
      match firstOpt options captionSel with
      | some s => args ++ [Chunk.str s]
      | none => args
    .ok (args ++ [Chunk.str "\""])

/-- The chunks `write_line_options` appends to its writer. -/
def line_chunks (options : List PlotOption) : Buf :=
  [Chunk.str " lw "]
  ++ (match firstOpt options lineWidthSel with
      | some w => [Chunk.e12 w]
      | none => [Chunk.str "1"])
  ++ [Chunk.str " lt "]
  ++ (match firstOpt options lineStyleSel with
      | some d => [Chunk.str (toString d)]
      | none => [Chunk.str "1"])

/-- The chunks `write_color_options` appends to its writer. -/
def color_chunks (options : List PlotOption) (default : Option String) : Buf :=
  match
    (match firstOpt options colorSel with
     | some s => some s
     | none => default) with
  | some s => [Chunk.str " lc rgb \"", Chunk.str s, Chunk.str "\""]
  | none => []

/-- The chunks of the caption clause of `write_common_commands`. -/
def caption_chunks (options : List PlotOption) : Buf :=
  match firstOpt options captionSel with
  | some s => [Chunk.str s]
  | none => []

/-- The part of a directive fragment that follows the source-type
clause, starting at the `with` mode (used to state how
`write_common_commands` factors through its clauses). -/
def directive_tail (plot_type : PlotType) (options : List PlotOption) : Except String Buf :=
  match point_clause plot_type options with
  | .error e => .error e
  | .ok pc =>
    .ok ([Chunk.str " with ", Chunk.str (plot_type_str plot_type)]
      ++ fill_clause plot_type options
      ++ (if plot_type.is_line then line_chunks options else [])
      ++ pc
      ++ color_chunks options none
      ++ [Chunk.str " t \""]
      ++ caption_chunks options
      ++ [Chunk.str "\""])

/-- `AxesCommonData::plot2` (src lines 603-621): zips the two sequences,
writes each pair as two consecutive doubles, and appends one element
whose directive uses the Record source type with the tuple count. -/
def AxesCommonData.plot2 (a : AxesCommonData) (plot_type : PlotType)
    (x1 x2 : List Dbl) (options : List PlotOption) : Except String AxesCommonData :=
  let data := (x1.zip x2).flatMap fun p => [p.1, p.2]
  let num_rows := (x1.zip x2).length
  match write_common_commands [] num_rows 2 plot_type .Record false options with
  | .error e => .error e
  | .ok args => .ok { a with elems := a.elems ++ [{ args := args, data := data }] }

/-- `AxesCommonData::plot3` (src lines 623-643): like `plot2` with three
zipped sequences and three doubles per tuple. -/
def AxesCommonData.plot3 (a : AxesCommonData) (plot_type : PlotType)
    (x1 x2 x3 : List Dbl) (options : List PlotOption) : Except String AxesCommonData :=
  let rows := (x1.zip x2).zip x3
  let data := rows.flatMap fun p => [p.1.1, p.1.2, p.2]
  let num_rows := rows.length
  match write_common_commands [] num_rows 3 plot_type .Record false options with
  | .error e => .error e
  | .ok args => .ok { a with elems := a.elems ++ [{ args := args, data := data }] }

/-- `AxesCommonData::plot_matrix` (src lines 645-676): writes every value
of the input sequence, pads with NaN up to `num_rows * num_cols` when the
input is shorter, and appends one element with the Array or SizedArray
source type. -/
def AxesCommonData.plot_matrix (a : AxesCommonData) (plot_type : PlotType) (is_3d : Bool)
    (mat : List Dbl) (num_rows num_cols : ℕ) (dimensions : Option (ℚ × ℚ × ℚ × ℚ))
    (options : List PlotOption) : Except String AxesCommonData :=
  let count := mat.length
  let data := mat ++
    (if count < num_rows * num_cols then List.replicate (num_rows * num_cols - count) Dbl.nan
     else [])
  let source_type :=
    match dimensions with
    | some d => DataSourceType.SizedArray d.1 d.2.1 d.2.2.1 d.2.2.2
    | none => DataSourceType.Array
  match write_common_commands [] num_rows num_cols plot_type source_type is_3d options with
  | .error e => .error e
  | .ok args => .ok { a with elems := a.elems ++ [{ args := args, data := data }] }

/-- One unit of the final output stream: a text chunk or one binary
double. -/
inductive Out where
  | txt (c : Chunk)
  | bin (d : Dbl)
  deriving DecidableEq

/-- The comma-joining loop over element directive fragments in
`write_out_elements` (src lines 865-874). -/
def elems_args_loop : List PlotElement → Bool → List Out
  | [], _ => []
  | e :: rest, first =>
    (if !first then [Out.txt (Chunk.str ",")] else [])
    ++ e.args.map Out.txt
    ++ elems_args_loop rest false

/-- `AxesCommonData::write_out_elements` (src lines 861-882): the command
keyword, the comma-joined directive fragments, a newline, then every
binary payload in the same insertion order. -/
def AxesCommonData.write_out_elements (a : AxesCommonData) (cmd : String) : List Out :=
  [Out.txt (Chunk.str cmd)]
  ++ elems_args_loop a.elems true
  ++ [Out.txt (Chunk.str "\n")]
  ++ a.elems.flatMap fun e => e.data.map Out.bin

/-- `AxesCommon::set_pos` (src lines 946-951): clears the grid position
and appends an absolute-origin directive to the command buffer. -/
def AxesCommonData.set_pos (a : AxesCommonData) (x y : ℚ) : AxesCommonData :=
  { a with
    grid_pos := none
    commands := a.commands ++
      [Chunk.str "set origin ", Chunk.e12 x, Chunk.str ",", Chunk.e12 y, Chunk.str "\n"] }

/-- `AxesCommon::set_pos_grid` (src lines 927-939): validated grid
placement; the source asserts `nrow > 0`, `ncol > 0` and
`pos < nrow * ncol`. -/
def AxesCommonData.set_pos_grid (a : AxesCommonData) (nrow ncol pos : ℕ) :
    Except String AxesCommonData :=
  if nrow > 0 then
    if ncol > 0 then
      if pos < nrow * ncol then
        .ok { a with grid_rows := nrow, grid_cols := ncol, grid_pos := some pos }
      else .error "assertion failed: pos < nrow * ncol"
    else .error "assertion failed: ncol > 0"
  else .error "assertion failed: nrow > 0"

/-- `PaletteType` from `options.rs`, as consumed by `set_palette`. -/
inductive PaletteType where
  | Gray (gamma : ℚ)
  | Formula (r g b : ℤ)
  | CubeHelix (start rev sat gamma : ℚ)
  deriving DecidableEq

/-- `AxesCommon::set_palette` (src lines 1185-1212): validated palette
selection (gray gamma positive; each RGB formula in [-36, 36]; cube-helix
saturation non-negative and gamma positive). -/
def AxesCommonData.set_palette (a : AxesCommonData) (palette : PaletteType) :
    Except String AxesCommonData :=
  match palette with
  | .Gray gamma =>
    if gamma > 0 then
      .ok { a with commands := a.commands ++
        [Chunk.str "set palette gray gamma ", Chunk.e12 gamma, Chunk.str "\n"] }
    else .error "Gamma must be positive"
  | .Formula r g b =>
    if -36 ≤ r ∧ r ≤ 36 then
      if -36 ≤ g ∧ g ≤ 36 then
        if -36 ≤ b ∧ b ≤ 36 then
          .ok { a with commands := a.commands ++
            [Chunk.str "set palette rgbformulae ", Chunk.str (toString r), Chunk.str ",",
             Chunk.str (toString g), Chunk.str ",", Chunk.str (toString b), Chunk.str "\n"] }
        else .error "Invalid b formula"
      else .error "Invalid g formula"
    else .error "Invalid r formula"
  | .CubeHelix start rev sat gamma =>
    if sat ≥ 0 then
      if gamma > 0 then
        .ok { a with commands := a.commands ++
          [Chunk.str "set palette cubehelix start ", Chunk.e12 start,
           Chunk.str " cycles ", Chunk.e12 rev, Chunk.str " saturation ", Chunk.e12 sat,
           Chunk.str " gamma ", Chunk.e12 gamma, Chunk.str "\n"] }
      else .error "Gamma must be positive"
    else .error "Saturation must be non-negative"

/-- The control-point loop of `set_custom_palette` (src lines 1228-1245):
tracks the first-element flag and the previous gray level, asserts that
gray levels never decrease, and emits one comma-separated 4-tuple of
values per point.  Returns the chunks written and the final first-flag. -/
def custom_palette_loop : List (ℚ × ℚ × ℚ × ℚ) → Bool → ℚ → Buf →
    Except String (Buf × Bool)
  | [], first, _, c => .ok (c, first)
  | g :: rest, first, old_x, c =>
    let x := g.1
    let p := if first then (x, c) else (old_x, c ++ [Chunk.str ","])
    if x ≥ p.1 then
      custom_palette_loop rest false x
        (p.2 ++ [Chunk.e12 x, Chunk.str " ", Chunk.e12 g.2.1, Chunk.str " ",
                 Chunk.e12 g.2.2.1, Chunk.str " ", Chunk.e12 g.2.2.2])
    else .error "The gray levels must be non-decreasing"

/-- `AxesCommon::set_custom_palette` (src lines 1222-1255): validated
custom palette; fails on an empty generator and at the first control
point whose gray level is below its predecessor. -/
def AxesCommonData.set_custom_palette (a : AxesCommonData)
    (palette_generator : List (ℚ × ℚ × ℚ × ℚ)) : Except String AxesCommonData :=
  match custom_palette_loop palette_generator true 0
      (a.commands ++ [Chunk.str "set palette defined ("]) with
  | .error e => .error e
  | .ok p =>
    if p.2 then .error "Need at least 1 element in the generator"
    else .ok { a with commands := p.1 ++ [Chunk.str ")", Chunk.str "\n"] }

/-- The Display-formatted (`{}`) floats of a buffer, in order. -/
def dispFloats (b : Buf) : List ℚ :=
  b.filterMap fun c =>
    match c with
    | .disp v => some v
    | _ => none

/-- The axis command stream produced for the X axis after
`set_ticks(Some((Fixed(2.0), 3)), &[], &[])`: the log-scale toggle, the
minor-tick directive (count 3 is rendered as the gnuplot interval 4), the
range directive, then the tick directive with the explicit increment. -/
def c3_out : Buf :=
  [Chunk.str "unset logscale ", Chunk.str "x", Chunk.str "\n",
   Chunk.str "set m", Chunk.str "xtics", Chunk.str " ", Chunk.str "4", Chunk.str "\n",
   Chunk.str "\n", Chunk.str "set ", Chunk.str "xrange", Chunk.str " [", Chunk.str "*",
   Chunk.str ":", Chunk.str "*", Chunk.str "]\n",
   Chunk.str "set ", Chunk.str "xtics", Chunk.str " ", Chunk.str " ", Chunk.e12 2,
   Chunk.str " scale ", Chunk.e12 (1/2), Chunk.str ",", Chunk.e12 (1/2), Chunk.str "\n"]

/-- Whether a chunk is a `{:.12e}`-formatted float. -/
def Chunk.isE12 : Chunk → Bool
  | .e12 _ => true
  | _ => false

/-- The directive fragment produced for an empty Points record plot with
a point-size option: the point size is emitted as a Display-formatted
(`{}`) float. -/
def c7_out : Buf :=
  [Chunk.str " \"-\" binary endian=little record=", Chunk.str "0",
   Chunk.str " format=\"%float64\" using ", Chunk.str " with ", Chunk.str "points",
   Chunk.str " ps ", Chunk.disp 2, Chunk.str " t \"", Chunk.str "\""]

/-- `set_range` touches only the min/max fields: the tick buffer, the
minor-tick count, the log base and the axis tag survive unchanged while
the two bounds take the supplied values. -/
def modifies_only_range (a b : AxisData) (mn mx : AutoOption ℚ) : Prop :=
  b.ticks_buf = a.ticks_buf ∧ b.mticks = a.mticks ∧ b.log_base = a.log_base ∧
  b.axis = a.axis ∧ b.min = mn ∧ b.max = mx

/-- `set_log` touches only the log-base field. -/
def modifies_only_log (a b : AxisData) (base : Option ℚ) : Prop :=
  b.ticks_buf = a.ticks_buf ∧ b.mticks = a.mticks ∧ b.min = a.min ∧ b.max = a.max ∧
  b.axis = a.axis ∧ b.log_base = base

/-- The tick setters leave min, max, the log base and the axis tag
unchanged. -/
def preserves_range_log (a b : AxisData) : Prop :=
  b.min = a.min ∧ b.max = a.max ∧ b.log_base = a.log_base ∧ b.axis = a.axis

/-- The X axis state after `set_ticks(None, &[], &[])` on a fresh axis. -/
def c10_a1 : AxisData :=
  { ticks_buf := [Chunk.str "unset ", Chunk.str "xtics", Chunk.str "\n"]
    log_base := none
    mticks := 0
    axis := .XTickAxis
    min := .Auto
    max := .Auto }

/-- The X axis state after `set_ticks_custom` with no ticks and no
options on a fresh axis. -/
def c10_a2 : AxisData :=
  { ticks_buf := [Chunk.str "set ", Chunk.str "xtics", Chunk.str " (", Chunk.str ")",
      Chunk.str " scale ", Chunk.e12 (1/2), Chunk.str ",", Chunk.e12 (1/2), Chunk.str "\n"]
    log_base := none
    mticks := 0
    axis := .XTickAxis
    min := .Auto
    max := .Auto }

/-- The X axis state after `set_ticks(None, &[], &[])` on a fresh axis
(value used by the C7 witness). -/
def c7_ax : AxisData :=
  { ticks_buf := [Chunk.str "unset ", Chunk.str "xtics", Chunk.str "\n"]
    log_base := none
    mticks := 0
    axis := .XTickAxis
    min := .Auto
    max := .Auto }

@[simp] theorem dispFloats_nil : dispFloats [] = [] := rfl

@[simp] theorem dispFloats_str_cons (s : String) (t : Buf) :
    dispFloats (Chunk.str s :: t) = dispFloats t := rfl

@[simp] theorem dispFloats_e12_cons (v : ℚ) (t : Buf) :
    dispFloats (Chunk.e12 v :: t) = dispFloats t := rfl

@[simp] theorem dispFloats_disp_cons (v : ℚ) (t : Buf) :
    dispFloats (Chunk.disp v :: t) = v :: dispFloats t := rfl

@[simp] theorem dispFloats_append (x y : Buf) :
    dispFloats (x ++ y) = dispFloats x ++ dispFloats y := by
  simp [dispFloats]

theorem write_line_options_eq (c : Buf) (o : List PlotOption) :
    write_line_options c o = c ++ line_chunks o := by
  unfold write_line_options line_chunks
  cases firstOpt o lineWidthSel <;> cases firstOpt o lineStyleSel <;> simp

theorem write_color_options_eq (c : Buf) (o : List PlotOption) (d : Option String) :
    write_color_options c o d = c ++ color_chunks o d := by
  unfold write_color_options color_chunks
  cases firstOpt o colorSel <;> cases d <;> simp

theorem wcc_decomp (args : Buf) (nr nc : ℕ) (pt : PlotType) (st : DataSourceType)
    (i3 : Bool) (o : List PlotOption) :
    write_common_commands args nr nc pt st i3 o
      = Except.map (fun t => args ++ source_type_clause st nr nc i3 ++ t)
          (directive_tail pt o) := by
  unfold write_common_commands directive_tail
  cases h : point_clause pt o with
  | error e => simp [Except.map]
  | ok pc =>
    cases hl : pt.is_line <;>
      simp [Except.map, write_line_options_eq, write_color_options_eq, caption_chunks, hl] <;>
      cases hc : firstOpt o captionSel <;> simp [List.append_assoc]

theorem point_clause_nil (pt : PlotType) : point_clause pt [] = .ok [] := by
  unfold point_clause
  cases hp : pt.is_points <;> simp [firstOpt, hp]

theorem wcc_nil_opts_ok (args : Buf) (nr nc : ℕ) (pt : PlotType) (st : DataSourceType)
    (i3 : Bool) :
    okB (write_common_commands args nr nc pt st i3 []) = true := by
  rw [wcc_decomp]
  unfold directive_tail
  rw [point_clause_nil]
  rfl

theorem map_length_pair_sum (l : List (Dbl × Dbl)) :
    (List.map (List.length ∘ fun p => [p.1, p.2]) l).sum = 2 * l.length := by
  induction l with
  | nil => rfl
  | cons h t ih =>
    simp [ih]
    omega

theorem map_length_triple_sum (l : List ((Dbl × Dbl) × Dbl)) :
    (List.map (List.length ∘ fun p => [p.1.1, p.1.2, p.2]) l).sum = 3 * l.length := by
  induction l with
  | nil => rfl
  | cons h t ih =>
    simp [ih]
    omega

theorem pair_flatMap_length (l : List (Dbl × Dbl)) :
    (l.flatMap fun p => [p.1, p.2]).length = 2 * l.length := by
  induction l with
  | nil => rfl
  | cons h t ih =>
    simp [List.flatMap_cons, ih]
    omega

theorem triple_flatMap_length (l : List ((Dbl × Dbl) × Dbl)) :
    (l.flatMap fun p => [p.1.1, p.1.2, p.2]).length = 3 * l.length := by
  induction l with
  | nil => rfl
  | cons h t ih =>
    simp [List.flatMap_cons, ih]
    omega

theorem dispFloats_using_cols_loop (fuel : ℕ) : ∀ i n : ℕ,
    dispFloats (using_cols_loop fuel i n) = [] := by
  induction fuel with
  | zero => intro i n; rfl
  | succ f ih =>
    intro i n
    unfold using_cols_loop
    split_ifs <;> simp [ih]

theorem dispFloats_source_type_clause (st : DataSourceType) (nr nc : ℕ) (i3 : Bool) :
    dispFloats (source_type_clause st nr nc i3) = [] := by
  cases st with
  | Record => simp [source_type_clause, using_cols, dispFloats_using_cols_loop]
  | Array => simp [source_type_clause]
  | SizedArray x1 y1 x2 y2 =>
    unfold source_type_clause
    split_ifs <;> simp

theorem dispFloats_fill_clause (pt : PlotType) (o : List PlotOption) :
    dispFloats (fill_clause pt o) = [] := by
  unfold fill_clause
  cases pt <;>
    cases h1 : firstOpt o fillRegionSel <;>
    cases h2 : firstOpt o fillAlphaSel <;>
    cases h3 : firstOpt o borderColorSel <;>
    simp [h1, h2, h3, PlotType.is_fill, PlotType.is_line]

theorem dispFloats_line_chunks (o : List PlotOption) : dispFloats (line_chunks o) = [] := by
  unfold line_chunks
  cases firstOpt o lineWidthSel <;> cases firstOpt o lineStyleSel <;> simp

theorem dispFloats_color_chunks (o : List PlotOption) (d : Option String) :
    dispFloats (color_chunks o d) = [] := by
  unfold color_chunks
  cases firstOpt o colorSel <;> cases d <;> simp

theorem dispFloats_caption_chunks (o : List PlotOption) :
    dispFloats (caption_chunks o) = [] := by
  unfold caption_chunks
  cases firstOpt o captionSel <;> simp

theorem point_clause_disp (pt : PlotType) (o : List PlotOption) (pc : Buf)
    (h : point_clause pt o = .ok pc) :
    dispFloats pc = (if pt.is_points then (firstOpt o pointSizeSel).toList else []) := by
  unfold point_clause at h
  cases hp : pt.is_points with
  | false =>
    rw [hp] at h
    simp only [Bool.false_eq_true, if_false, Except.ok.injEq] at h
    simp [← h, hp]
  | true =>
    rw [hp] at h
    simp only [if_true] at h
    cases hs : firstOpt o pointSymbolSel with
    | none =>
      rw [hs] at h
      cases hz : firstOpt o pointSizeSel <;> rw [hz] at h <;>
        simp only [Except.ok.injEq] at h <;> simp [← h, hp, hz]
    | some s =>
      rw [hs] at h
      cases hcs : char_to_symbol s with
      | error e =>
        simp only [hcs, Except.map] at h
        exact Except.noConfusion h
      | ok n =>
        simp only [hcs, Except.map] at h
        cases hz : firstOpt o pointSizeSel <;> rw [hz] at h <;>
          simp only [Except.ok.injEq] at h <;> simp [← h, hp, hz]

theorem directive_tail_disp (pt : PlotType) (o : List PlotOption) (t : Buf)
    (h : directive_tail pt o = .ok t) :
    dispFloats t = (if pt.is_points then (firstOpt o pointSizeSel).toList else []) := by
  unfold directive_tail at h
  cases hp : point_clause pt o with
  | error e => rw [hp] at h; cases h
  | ok pc =>
    rw [hp] at h
    simp only [Except.ok.injEq] at h
    subst h
    cases hl : pt.is_line <;>
      simp [dispFloats_fill_clause, dispFloats_line_chunks, dispFloats_color_chunks,
        dispFloats_caption_chunks, point_clause_disp pt o pc hp, hl]

theorem wolo_axesticks_disp (lo : List LabelOption) (c : Buf)
    (h : write_out_label_options .AxesTicks lo = .ok c) :
    dispFloats c = ((firstOpt lo fontSel).map fun q => q.2).toList := by
  unfold write_out_label_options at h
  simp only [LabelType.is_label, Bool.false_eq_true, if_false, Except.ok.injEq] at h
  subst h
  cases h1 : firstOpt lo textOffsetSel <;>
    cases h2 : firstOpt lo textColorSel <;>
    cases h3 : firstOpt lo fontSel <;>
    cases h4 : firstOpt lo rotateSel <;>
    simp [h1, h2, h3, h4]

theorem set_ticks_options_disp (tos : List TickOption) (lo : List LabelOption) (oc : Buf)
    (h : set_ticks_options tos lo = .ok oc) :
    dispFloats oc = ((firstOpt lo fontSel).map fun q => q.2).toList := by
  unfold set_ticks_options at h
  cases hw : write_out_label_options .AxesTicks lo with
  | error e => rw [hw] at h; exact Except.noConfusion h
  | ok c0 =>
    rw [hw] at h
    simp only [Except.ok.injEq] at h
    subst h
    cases h1 : firstOpt tos onAxisSel <;>
      cases h2 : firstOpt tos mirrorSel <;>
      cases h3 : firstOpt tos inwardSel <;>
      simp [h1, h2, h3, wolo_axesticks_disp lo c0 hw]

theorem set_ticks_ok_spec (a : AxisData) (p : Option (AutoOption ℚ × ℕ))
    (tos : List TickOption) (lo : List LabelOption) (a2 : AxisData)
    (h : a.set_ticks p tos lo = .ok a2) :
    a2.log_base = a.log_base ∧ a2.axis = a.axis ∧ a2.min = a.min ∧ a2.max = a.max ∧
    dispFloats a2.ticks_buf =
      (match p with
       | none => []
       | some _ => ((firstOpt lo fontSel).map fun q => q.2).toList) := by
  unfold AxisData.set_ticks at h
  cases p with
  | none =>
    simp only [Except.ok.injEq] at h
    subst h
    simp
  | some pr =>
    obtain ⟨incr, m⟩ := pr
    cases hs : set_ticks_options tos lo with
    | error e =>
      cases incr with
      | Auto => rw [hs] at h; exact Except.noConfusion h
      | Fix v =>
        by_cases hv : v ≤ 0
        · simp only [hv, if_true] at h
          exact Except.noConfusion h
        · simp only [hv, if_false] at h
          rw [hs] at h
          exact Except.noConfusion h
    | ok oc =>
      have hoc := set_ticks_options_disp tos lo oc hs
      cases incr with
      | Auto =>
        rw [hs] at h
        simp only [Except.ok.injEq] at h
        subst h
        simp [hoc]
      | Fix v =>
        by_cases hv : v ≤ 0
        · simp only [hv, if_true] at h
          exact Except.noConfusion h
        · simp only [hv, if_false] at h
          rw [hs] at h
          simp only [Except.ok.injEq] at h
          subst h
          simp [hoc]

theorem set_ticks_custom_ok_spec (a : AxisData) (tks : List Tick)
    (tos : List TickOption) (lo : List LabelOption) (a2 : AxisData)
    (h : a.set_ticks_custom tks tos lo = .ok a2) :
    a2.log_base = a.log_base ∧ a2.axis = a.axis ∧ a2.min = a.min ∧ a2.max = a.max := by
  unfold AxisData.set_ticks_custom at h
  cases hs : set_ticks_options tos lo with
  | error e => rw [hs] at h; exact Except.noConfusion h
  | ok oc =>
    rw [hs] at h
    simp only [Except.ok.injEq] at h
    subst h
    simp

theorem elems_args_loop_false (l : List PlotElement) :
    elems_args_loop l false
      = (l.map fun e => Out.txt (Chunk.str ",") :: e.args.map Out.txt).flatten := by
  induction l with
  | nil => rfl
  | cons e t ih => simp [elems_args_loop, ih]

theorem intersperse_flatten {α : Type} (s : List α) (xs : List (List α)) :
    ∀ x, (List.intersperse s (x :: xs)).flatten = x ++ (xs.map fun y => s ++ y).flatten := by
  induction xs with
  | nil => intro x; simp
  | cons y ys ih =>
    intro x
    rw [List.intersperse_cons_cons]
    simp only [List.flatten_cons]
    rw [ih y]
    simp [List.append_assoc]

theorem elems_args_loop_true (l : List PlotElement) :
    elems_args_loop l true
      = List.intercalate [Out.txt (Chunk.str ",")] (l.map fun e => e.args.map Out.txt) := by
  cases l with
  | nil => rfl
  | cons e t =>
    rw [List.intercalate, List.map_cons, intersperse_flatten]
    simp only [elems_args_loop, elems_args_loop_false, List.map_map, Bool.not_true,
      Bool.false_eq_true, if_false, List.nil_append]
    rfl

theorem custom_palette_loop_flag (gens : List (ℚ × ℚ × ℚ × ℚ)) :
    ∀ (old : ℚ) (c : Buf) (p : Buf × Bool),
      custom_palette_loop gens false old c = .ok p → p.2 = false := by
  induction gens with
  | nil =>
    intro old c p h
    unfold custom_palette_loop at h
    simp only [Except.ok.injEq] at h
    rw [← h]
  | cons g t ih =>
    intro old c p h
    unfold custom_palette_loop at h
    simp only [Bool.false_eq_true, if_false] at h
    by_cases hge : g.1 ≥ old
    · rw [if_pos hge] at h
      exact ih _ _ _ h
    · rw [if_neg hge] at h
      exact Except.noConfusion h

theorem custom_palette_loop_false_ok (gens : List (ℚ × ℚ × ℚ × ℚ)) :
    ∀ (old : ℚ) (c : Buf),
      okB (custom_palette_loop gens false old c) = true ↔
        List.Chain' (fun p q => p ≤ q) (old :: gens.map fun g => g.1) := by
  induction gens with
  | nil => intro old c; simp [custom_palette_loop, okB]
  | cons g t ih =>
    intro old c
    unfold custom_palette_loop
    simp only [Bool.false_eq_true, if_false]
    by_cases hge : g.1 ≥ old
    · rw [if_pos hge]
      rw [ih]
      simp [List.chain'_cons, hge]
    · rw [if_neg hge]
      simp [okB, List.chain'_cons]
      intro hle
      exact absurd hle hge

theorem custom_palette_after_loop (t : List (ℚ × ℚ × ℚ × ℚ)) (old : ℚ) (c : Buf)
    (a : AxesCommonData) :
    okB ((match custom_palette_loop t false old c with
          | .error e => .error e
          | .ok p =>
            if p.2 then (.error "Need at least 1 element in the generator" :
              Except String AxesCommonData)
            else .ok { a with commands := p.1 ++ [Chunk.str ")", Chunk.str "\n"] })) = true
      ↔ List.Chain' (fun p q => p ≤ q) (old :: t.map fun g => g.1) := by
  cases hl : custom_palette_loop t false old c with
  | error e =>
    have hiff := custom_palette_loop_false_ok t old c
    rw [hl] at hiff
    simp [okB] at hiff ⊢
    exact fun hc => (hiff hc).elim
  | ok p =>
    have hflag := custom_palette_loop_flag t old c p hl
    have hiff := custom_palette_loop_false_ok t old c
    rw [hl] at hiff
    simp [okB] at hiff
    simp [okB, hflag]
    exact hiff

theorem set_custom_palette_ok (a : AxesCommonData) (gens : List (ℚ × ℚ × ℚ × ℚ)) :
    okB (a.set_custom_palette gens) = true ↔
      gens ≠ [] ∧ List.Chain' (fun p q => p.1 ≤ q.1) gens := by
  unfold AxesCommonData.set_custom_palette
  cases gens with
  | nil => simp [custom_palette_loop, okB]
  | cons g t =>
    unfold custom_palette_loop
    simp only [if_true]
    rw [if_pos (le_refl g.1)]
    rw [custom_palette_after_loop]
    have hmap : (g.1 :: List.map (fun g => g.1) t) = List.map (fun g => g.1) (g :: t) := rfl
    simp only [hmap, List.chain'_map]
    simp

/-- C4: for every option list and every option kind (modelled by a
selector function), option resolution returns the payload of the earliest
entry in the list whose kind matches, ignoring non-matching entries and
all later matching entries; duplicates raise no error, and
`[Color "red", Color "blue"]` resolves the color to `"red"`. -/
theorem c4_first_match_wins :
    (∀ (β : Type) (options : List PlotOption) (sel : PlotOption → Option β),
        firstOpt options sel = (options.filterMap sel).head?)
    ∧ write_color_options [] [PlotOption.Color "red", PlotOption.Color "blue"] none
        = [Chunk.str " lc rgb \"", Chunk.str "red", Chunk.str "\""] := by
  refine ⟨?_, rfl⟩
  intro β options sel
  induction options with
  | nil => rfl
  | cons o rest ih =>
    unfold firstOpt
    rw [List.filterMap_cons]
    cases sel o <;> simp [ih]

/-- C8: `char_to_symbol` maps exactly the fourteen characters
`. + x * s S o O t T d D r R` to 0..13 ('o' to 6 in particular) and fails
with an invalid-argument error for every other character. -/
theorem c8_char_to_symbol (c : Char)
    (h : c ∉ ['.', '+', 'x', '*', 's', 'S', 'o', 'O', 't', 'T', 'd', 'D', 'r', 'R']) :
    (char_to_symbol '.' = .ok 0 ∧ char_to_symbol '+' = .ok 1 ∧ char_to_symbol 'x' = .ok 2 ∧
     char_to_symbol '*' = .ok 3 ∧ char_to_symbol 's' = .ok 4 ∧ char_to_symbol 'S' = .ok 5 ∧
     char_to_symbol 'o' = .ok 6 ∧ char_to_symbol 'O' = .ok 7 ∧ char_to_symbol 't' = .ok 8 ∧
     char_to_symbol 'T' = .ok 9 ∧ char_to_symbol 'd' = .ok 10 ∧ char_to_symbol 'D' = .ok 11 ∧
     char_to_symbol 'r' = .ok 12 ∧ char_to_symbol 'R' = .ok 13)
    ∧ okB (char_to_symbol c) = false := by
  refine ⟨⟨rfl, rfl, rfl, rfl, rfl, rfl, rfl, rfl, rfl, rfl, rfl, rfl, rfl, rfl⟩, ?_⟩
  simp only [List.mem_cons, List.not_mem_nil, or_false, not_or] at h
  obtain ⟨h1, h2, h3, h4, h5, h6, h7, h8, h9, h10, h11, h12, h13, h14⟩ := h
  simp [char_to_symbol, h1, h2, h3, h4, h5, h6, h7, h8, h9, h10, h11, h12, h13, h14, okB]

/-- Witness for C8 at the concrete character 'Q'. -/
theorem c8_char_to_symbol_witness :
    ('Q' ∉ ['.', '+', 'x', '*', 's', 'S', 'o', 'O', 't', 'T', 'd', 'D', 'r', 'R'])
    ∧ okB (char_to_symbol 'Q') = false :=
  ⟨by decide, (c8_char_to_symbol 'Q' (by decide)).2⟩

/-- C2: `write_out_elements(cmd)` emits the command string, each
element's directive fragment comma-joined in insertion order, a newline,
then each element's binary payload concatenated in the same insertion
order; the number of directive fragments equals the number of binary
blocks, and with 0 elements the directive line is just the command
keyword. -/
theorem c2_write_out_elements_layout (a : AxesCommonData) (cmd : String) :
    a.write_out_elements cmd
      = [Out.txt (Chunk.str cmd)]
        ++ List.intercalate [Out.txt (Chunk.str ",")] (a.elems.map fun e => e.args.map Out.txt)
        ++ [Out.txt (Chunk.str "\n")]
        ++ (a.elems.map fun e => e.data.map Out.bin).flatten
    ∧ (a.elems.map fun e => e.args).length = (a.elems.map fun e => e.data).length
    ∧ AxesCommonData.write_out_elements { a with elems := [] } cmd
        = [Out.txt (Chunk.str cmd), Out.txt (Chunk.str "\n")] := by
  refine ⟨?_, by simp, rfl⟩
  unfold AxesCommonData.write_out_elements
  rw [elems_args_loop_true]
  simp [List.flatMap_def]

/-- C9: the validated setters fail with invalid-argument errors exactly
on their documented contract violations: grid position requires
`0 < nrow`, `0 < ncol`, `pos < nrow*ncol`; gray palette gamma positive;
each RGB-formula coefficient in [-36, 36]; cube-helix saturation
non-negative and gamma positive; a custom palette requires a non-empty
generator with non-decreasing gray levels (first violation fails), so
gray levels [0, 0.5, 0.3] fail while [0, 0.5] and [0, 0.5, 1] succeed. -/
theorem c9_validated_setters :
    (∀ (a : AxesCommonData) (nrow ncol pos : ℕ),
        okB (a.set_pos_grid nrow ncol pos) = true ↔
          0 < nrow ∧ 0 < ncol ∧ pos < nrow * ncol)
    ∧ (∀ (a : AxesCommonData) (gamma : ℚ),
        okB (a.set_palette (.Gray gamma)) = true ↔ 0 < gamma)
    ∧ (∀ (a : AxesCommonData) (r g b : ℤ),
        okB (a.set_palette (.Formula r g b)) = true ↔
          (-36 ≤ r ∧ r ≤ 36) ∧ (-36 ≤ g ∧ g ≤ 36) ∧ (-36 ≤ b ∧ b ≤ 36))
    ∧ (∀ (a : AxesCommonData) (s rev sat gamma : ℚ),
        okB (a.set_palette (.CubeHelix s rev sat gamma)) = true ↔ 0 ≤ sat ∧ 0 < gamma)
    ∧ (∀ (a : AxesCommonData) (gens : List (ℚ × ℚ × ℚ × ℚ)),
        okB (a.set_custom_palette gens) = true ↔
          gens ≠ [] ∧ List.Chain' (fun p q => p.1 ≤ q.1) gens)
    ∧ okB (AxesCommonData.new.set_custom_palette
        [(0, 0, 0, 0), ((1 : ℚ)/2, 0, 0, 0), ((3 : ℚ)/10, 0, 0, 0)]) = false
    ∧ okB (AxesCommonData.new.set_custom_palette
        [(0, 0, 0, 0), ((1 : ℚ)/2, 0, 0, 0)]) = true
    ∧ okB (AxesCommonData.new.set_custom_palette
        [(0, 0, 0, 0), ((1 : ℚ)/2, 0, 0, 0), (1, 0, 0, 0)]) = true := by
  refine ⟨?_, ?_, ?_, ?_, set_custom_palette_ok, ?_, ?_, ?_⟩
  · intro a nrow ncol pos
    unfold AxesCommonData.set_pos_grid
    split_ifs <;> simp_all [okB]
  · intro a gamma
    simp only [AxesCommonData.set_palette]
    split_ifs <;> simp_all [okB]
  · intro a r g b
    simp only [AxesCommonData.set_palette]
    split_ifs <;> simp_all [okB]
  · intro a s rev sat gamma
    simp only [AxesCommonData.set_palette]
    split_ifs <;> simp_all [okB]
  · rw [← Bool.not_eq_true, set_custom_palette_ok]
    rintro ⟨-, hch⟩
    norm_num [List.chain'_cons, List.chain'_singleton] at hch
  · rw [set_custom_palette_ok]
    refine ⟨by simp, ?_⟩
    norm_num [List.chain'_cons, List.chain'_singleton]
  · rw [set_custom_palette_ok]
    refine ⟨by simp, ?_⟩
    norm_num [List.chain'_cons, List.chain'_singleton]

/-- C10: `set_range` modifies only the min and max fields and `set_log`
modifies only the log-base field, both leaving the pre-rendered tick
buffer and the minor-tick count unchanged; conversely, `set_ticks` and
`set_ticks_custom` leave min, max and the log base unchanged. -/
theorem c10_axis_frame (a : AxisData) (mn mx : AutoOption ℚ) (base : Option ℚ)
    (p : Option (AutoOption ℚ × ℕ)) (tos : List TickOption) (lo : List LabelOption)
    (tks : List Tick) (a1 a2 : AxisData)
    (h1 : a.set_ticks p tos lo = .ok a1)
    (h2 : a.set_ticks_custom tks tos lo = .ok a2) :
    modifies_only_range a (a.set_range mn mx) mn mx
    ∧ modifies_only_log a (a.set_log base) base
    ∧ preserves_range_log a a1
    ∧ preserves_range_log a a2 := by
  obtain ⟨hl, hx, hmn, hmx, -⟩ := set_ticks_ok_spec a p tos lo a1 h1
  obtain ⟨hl2, hx2, hmn2, hmx2⟩ := set_ticks_custom_ok_spec a tks tos lo a2 h2
  exact ⟨⟨rfl, rfl, rfl, rfl, rfl, rfl⟩, ⟨rfl, rfl, rfl, rfl, rfl, rfl⟩,
    ⟨hmn, hmx, hl, hx⟩, ⟨hmn2, hmx2, hl2, hx2⟩⟩

/-- Witness for C10 on a fresh X axis with `set_ticks(None)` and an empty
custom tick list. -/
theorem c10_axis_frame_witness :
    modifies_only_range (AxisData.new .XTickAxis)
      ((AxisData.new .XTickAxis).set_range .Auto .Auto) .Auto .Auto
    ∧ modifies_only_log (AxisData.new .XTickAxis)
      ((AxisData.new .XTickAxis).set_log none) none
    ∧ preserves_range_log (AxisData.new .XTickAxis) c10_a1
    ∧ preserves_range_log (AxisData.new .XTickAxis) c10_a2 :=
  c10_axis_frame (AxisData.new .XTickAxis) .Auto .Auto none none [] [] [] c10_a1 c10_a2
    rfl rfl

/-- C5: for every matrix plot whose input yields fewer than rows*cols
values, `plot_matrix` pads the binary payload with trailing NaN doubles
up to exactly rows*cols values, never truncates the requested cell
count, never errors on short input (with benign options), and in
particular rows=2, cols=2 with an input of length 3 pads exactly one
trailing NaN. -/
theorem c5_matrix_nan_padding (a : AxesCommonData) (pt : PlotType) (is3d : Bool)
    (mat : List Dbl) (rows cols : ℕ) (dims : Option (ℚ × ℚ × ℚ × ℚ))
    (opts : List PlotOption)
    (hshort : mat.length < rows * cols)
    (hok : okB (a.plot_matrix pt is3d mat rows cols dims opts) = true) :
    (a.plot_matrix pt is3d mat rows cols dims opts).map
        (fun b => b.elems.getLast?.map PlotElement.data)
      = .ok (some (mat ++ List.replicate (rows * cols - mat.length) Dbl.nan))
    ∧ 0 < rows * cols - mat.length
    ∧ okB (a.plot_matrix pt is3d mat rows cols dims []) = true
    ∧ (AxesCommonData.new.plot_matrix PlotType.Image false
          [Dbl.val 1, Dbl.val 2, Dbl.val 3] 2 2 none []).map
        (fun b => b.elems.map PlotElement.data)
      = .ok [[Dbl.val 1, Dbl.val 2, Dbl.val 3, Dbl.nan]] := by
  refine ⟨?_, by omega, ?_, rfl⟩
  · unfold AxesCommonData.plot_matrix at hok ⊢
    cases dims with
    | none =>
      cases hw : write_common_commands [] rows cols pt .Array is3d opts with
      | error e => simp [hw, okB] at hok
      | ok args => simp [hw, Except.map, hshort]
    | some d =>
      cases hw : write_common_commands [] rows cols pt
          (.SizedArray d.1 d.2.1 d.2.2.1 d.2.2.2) is3d opts with
      | error e => simp [hw, okB] at hok
      | ok args => simp [hw, Except.map, hshort]
  · unfold AxesCommonData.plot_matrix
    cases dims with
    | none =>
      cases hw : write_common_commands [] rows cols pt .Array is3d [] with
      | error e =>
        have := wcc_nil_opts_ok [] rows cols pt .Array is3d
        rw [hw] at this
        exact absurd this (by simp [okB])
      | ok args => simp [hw, okB]
    | some d =>
      cases hw : write_common_commands [] rows cols pt
          (.SizedArray d.1 d.2.1 d.2.2.1 d.2.2.2) is3d [] with
      | error e =>
        have := wcc_nil_opts_ok [] rows cols pt (.SizedArray d.1 d.2.1 d.2.2.1 d.2.2.2) is3d
        rw [hw] at this
        exact absurd this (by simp [okB])
      | ok args => simp [hw, okB]

/-- Witness for C5 at the 2-by-2 matrix with a length-3 input. -/
theorem c5_matrix_nan_padding_witness :
    (AxesCommonData.new.plot_matrix PlotType.Image false
        [Dbl.val 1, Dbl.val 2, Dbl.val 3] 2 2 none []).map
        (fun b => b.elems.getLast?.map PlotElement.data)
      = .ok (some ([Dbl.val 1, Dbl.val 2, Dbl.val 3]
          ++ List.replicate (2 * 2 - [Dbl.val 1, Dbl.val 2, Dbl.val 3].length) Dbl.nan))
    ∧ 0 < 2 * 2 - [Dbl.val 1, Dbl.val 2, Dbl.val 3].length
    ∧ okB (AxesCommonData.new.plot_matrix PlotType.Image false
        [Dbl.val 1, Dbl.val 2, Dbl.val 3] 2 2 none []) = true
    ∧ (AxesCommonData.new.plot_matrix PlotType.Image false
          [Dbl.val 1, Dbl.val 2, Dbl.val 3] 2 2 none []).map
        (fun b => b.elems.map PlotElement.data)
      = .ok [[Dbl.val 1, Dbl.val 2, Dbl.val 3, Dbl.nan]] :=
  c5_matrix_nan_padding AxesCommonData.new PlotType.Image false
    [Dbl.val 1, Dbl.val 2, Dbl.val 3] 2 2 none [] (by decide) rfl

/-- C1, counterexample: `plot_matrix` with a 1-by-1 matrix and an input
sequence of length 2 encodes both input doubles into the payload while
the directive declares `array=(1,1)`, so the length clause does not match
the binary payload for sequences longer than rows*cols. -/
theorem c1_length_clause_counterexample :
    (AxesCommonData.new.plot_matrix PlotType.Image false [Dbl.val 1, Dbl.val 2] 1 1
        none []).map (fun b => b.elems.map fun e => (e.data.length, e.args.take 5))
      = .ok [(2, [Chunk.str " \"-\" binary endian=little array=(", Chunk.str "1",
          Chunk.str ",", Chunk.str "1", Chunk.str ") format=\"%float64\" "])]
    ∧ (2 : ℕ) ≠ 1 * 1 :=
  ⟨rfl, by decide⟩

/-- C1, amended: `plot2`/`plot3` zip their input sequences positionally
(truncating to the shortest, with no padding and no error) and emit
`record=N` where N is the number of tuples encoded, with the payload
holding exactly 2N (respectively 3N) doubles; `plot_matrix` emits
`array=(cols,rows)` and its payload holds `max(input length, rows*cols)`
doubles, which matches rows*cols exactly when the input sequence has at
most rows*cols values. -/
theorem c1_length_clause_amended (a : AxesCommonData) (pt : PlotType) (is3d : Bool)
    (x1 x2 x3 mat : List Dbl) (rows cols : ℕ) (dims : Option (ℚ × ℚ × ℚ × ℚ))
    (opts : List PlotOption)
    (h2 : okB (a.plot2 pt x1 x2 opts) = true)
    (h3 : okB (a.plot3 pt x1 x2 x3 opts) = true)
    (hm : okB (a.plot_matrix pt is3d mat rows cols dims opts) = true) :
    (a.plot2 pt x1 x2 opts).map
        (fun b => b.elems.getLast?.map fun e => (e.data.length, e.args.take 2))
      = .ok (some (2 * min x1.length x2.length,
          [Chunk.str " \"-\" binary endian=little record=",
           Chunk.str (toString (min x1.length x2.length))]))
    ∧ (a.plot3 pt x1 x2 x3 opts).map
        (fun b => b.elems.getLast?.map fun e => (e.data.length, e.args.take 2))
      = .ok (some (3 * min (min x1.length x2.length) x3.length,
          [Chunk.str " \"-\" binary endian=little record=",
           Chunk.str (toString (min (min x1.length x2.length) x3.length))]))
    ∧ (a.plot_matrix pt is3d mat rows cols dims opts).map
        (fun b => b.elems.getLast?.map fun e => (e.data.length, e.args.take 4))
      = .ok (some (Nat.max mat.length (rows * cols),
          [Chunk.str " \"-\" binary endian=little array=(", Chunk.str (toString cols),
           Chunk.str ",", Chunk.str (toString rows)])) := by
  refine ⟨?_, ?_, ?_⟩
  · unfold AxesCommonData.plot2 at h2 ⊢
    cases ht : directive_tail pt opts with
    | error e => simp [wcc_decomp, ht, Except.map, okB] at h2
    | ok t =>
      simp [wcc_decomp, ht, Except.map, source_type_clause, List.take]
      rw [map_length_pair_sum]
      simp [List.length_zip]
  · unfold AxesCommonData.plot3 at h3 ⊢
    cases ht : directive_tail pt opts with
    | error e => simp [wcc_decomp, ht, Except.map, okB] at h3
    | ok t =>
      simp [wcc_decomp, ht, Except.map, source_type_clause, List.take]
      rw [map_length_triple_sum]
      simp [List.length_zip]
  · unfold AxesCommonData.plot_matrix at hm ⊢
    cases dims with
    | none =>
      cases ht : directive_tail pt opts with
      | error e => simp [wcc_decomp, ht, Except.map, okB] at hm
      | ok t =>
        by_cases hlt : mat.length < rows * cols
        · simp [wcc_decomp, ht, Except.map, hlt, source_type_clause, List.take,
            Nat.max_eq_right hlt.le]
          omega
        · simp [wcc_decomp, ht, Except.map, hlt, source_type_clause, List.take,
            Nat.max_eq_left (le_of_not_lt hlt)]
    | some d =>
      cases ht : directive_tail pt opts with
      | error e => simp [wcc_decomp, ht, Except.map, okB] at hm
      | ok t =>
        by_cases hlt : mat.length < rows * cols
        · simp [wcc_decomp, ht, Except.map, hlt, source_type_clause, List.take,
            Nat.max_eq_right hlt.le]
          omega
        · simp [wcc_decomp, ht, Except.map, hlt, source_type_clause, List.take,
            Nat.max_eq_left (le_of_not_lt hlt)]

/-- Witness for C1 at singleton inputs and a 1-by-1 matrix. -/
theorem c1_length_clause_witness :
    (AxesCommonData.new.plot2 PlotType.Lines [Dbl.val 1] [Dbl.val 2] []).map
        (fun b => b.elems.getLast?.map fun e => (e.data.length, e.args.take 2))
      = .ok (some (2 * min [Dbl.val 1].length [Dbl.val 2].length,
          [Chunk.str " \"-\" binary endian=little record=",
           Chunk.str (toString (min [Dbl.val 1].length [Dbl.val 2].length))]))
    ∧ (AxesCommonData.new.plot3 PlotType.Lines [Dbl.val 1] [Dbl.val 2] [Dbl.val 3] []).map
        (fun b => b.elems.getLast?.map fun e => (e.data.length, e.args.take 2))
      = .ok (some (3 * min (min [Dbl.val 1].length [Dbl.val 2].length) [Dbl.val 3].length,
          [Chunk.str " \"-\" binary endian=little record=",
           Chunk.str (toString (min (min [Dbl.val 1].length [Dbl.val 2].length)
             [Dbl.val 3].length))]))
    ∧ (AxesCommonData.new.plot_matrix PlotType.Lines false [Dbl.val 1] 1 1 none []).map
        (fun b => b.elems.getLast?.map fun e => (e.data.length, e.args.take 4))
      = .ok (some (Nat.max [Dbl.val 1].length (1 * 1),
          [Chunk.str " \"-\" binary endian=little array=(", Chunk.str (toString 1),
           Chunk.str ",", Chunk.str (toString 1)])) :=
  c1_length_clause_amended AxesCommonData.new PlotType.Lines false
    [Dbl.val 1] [Dbl.val 2] [Dbl.val 3] [Dbl.val 1] 1 1 none [] rfl rfl rfl

/-- C6: for every SizedArray element with bounds (x1, y1, x2, y2), the
directive emits `origin=(min_x, min_y)` with a third coordinate `,0`
exactly when `is_3d`, with `dx = (max_x - min_x)/(cols - 1)` and
`dy = (max_y - min_y)/(rows - 1)` after normalizing reversed bounds by
swapping; when `cols <= 1` (respectively `rows <= 1`) the corresponding
spacing is emitted as the literal 1, so no division by zero occurs.  The
second conjunct places this clause inside every directive fragment built
by `write_common_commands`. -/
theorem c6_sized_array_spacing :
    (∀ (x1 y1 x2 y2 : ℚ) (rows cols : ℕ) (is3d : Bool),
      source_type_clause (.SizedArray x1 y1 x2 y2) rows cols is3d
        = [Chunk.str " \"-\" binary endian=little array=(", Chunk.str (toString cols),
           Chunk.str ",", Chunk.str (toString rows), Chunk.str ") format=\"%float64\" ",
           Chunk.str "origin=(", Chunk.e12 (min x1 x2), Chunk.str ",", Chunk.e12 (min y1 y2)]
          ++ (if is3d then [Chunk.str ",0"] else [])
          ++ [Chunk.str ") "]
          ++ (if cols > 1 then
                [Chunk.str "dx=", Chunk.e12 ((max x1 x2 - min x1 x2) / ((cols : ℚ) - 1)),
                 Chunk.str " "]
              else [Chunk.str "dx=1 "])
          ++ (if rows > 1 then
                [Chunk.str "dy=", Chunk.e12 ((max y1 y2 - min y1 y2) / ((rows : ℚ) - 1)),
                 Chunk.str " "]
              else [Chunk.str "dy=1 "]))
    ∧ (∀ (args : Buf) (nr nc : ℕ) (pt : PlotType) (st : DataSourceType) (i3 : Bool)
        (o : List PlotOption),
        write_common_commands args nr nc pt st i3 o
          = Except.map (fun t => args ++ source_type_clause st nr nc i3 ++ t)
              (directive_tail pt o)) := by
  refine ⟨?_, wcc_decomp⟩
  intro x1 y1 x2 y2 rows cols is3d
  simp only [source_type_clause]
  rcases lt_or_le x2 x1 with hx | hx <;> rcases lt_or_le y2 y1 with hy | hy
  · rw [if_pos (show x1 > x2 from hx), if_pos (show y1 > y2 from hy),
      min_eq_right hx.le, min_eq_right hy.le, max_eq_left hx.le, max_eq_left hy.le]
    simp
  · rw [if_pos (show x1 > x2 from hx), if_neg (show ¬ y1 > y2 from not_lt.mpr hy),
      min_eq_right hx.le, min_eq_left hy, max_eq_left hx.le, max_eq_right hy]
    simp
  · rw [if_neg (show ¬ x1 > x2 from not_lt.mpr hx), if_pos (show y1 > y2 from hy),
      min_eq_left hx, min_eq_right hy.le, max_eq_right hx, max_eq_left hy.le]
    simp
  · rw [if_neg (show ¬ x1 > x2 from not_lt.mpr hx), if_neg (show ¬ y1 > y2 from not_lt.mpr hy),
      min_eq_left hx, min_eq_left hy, max_eq_right hx, max_eq_right hy]
    simp

/-- C3, counterexample: after `set_ticks(Some((Fixed(2.0), 3)), &[], &[])`
the rendered axis commands are exactly `c3_out`, and in that stream no
explicit-increment float (no `{:.12e}` chunk at all) precedes the
minor-tick directive (`set m...`): `write_out_commands` emits the
minor-tick directive before the tick directive, not after it as the
claim states. -/
theorem c3_set_ticks_counterexample :
    ((AxisData.new TickAxis.XTickAxis).set_ticks (some (AutoOption.Fix 2, 3)) [] []).map
        (fun a => a.write_out_commands) = .ok c3_out
    ∧ ¬ ∃ i : Fin c3_out.length, ∃ j : Fin c3_out.length,
        (i : ℕ) < (j : ℕ) ∧ (c3_out.get i).isE12 = true ∧ c3_out.get j = Chunk.str "set m" :=
  ⟨rfl, by decide⟩

/-- C3, amended: `set_ticks` with placement `Some((Fixed(v), _))` fails
with an invalid-argument error for every `v <= 0`; with
`Some((Fixed(2.0), 3))` it succeeds and the rendered axis commands
contain the minor-tick directive for count 3 (emitted as the gnuplot
interval 4) followed by the tick directive with explicit increment
`2.000000000000e0` (the `{:.12e}` rendering of 2). -/
theorem c3_set_ticks_amended (a : AxisData) (v : ℚ) (m : ℕ) (tos : List TickOption)
    (lo : List LabelOption) (h : v ≤ 0) :
    a.set_ticks (some (.Fix v, m)) tos lo = .error "incr must be positive"
    ∧ ((AxisData.new TickAxis.XTickAxis).set_ticks (some (AutoOption.Fix 2, 3)) [] []).map
        (fun x => x.write_out_commands) = .ok c3_out
    ∧ Chunk.e12 2 ∈ c3_out
    ∧ (∃ i : Fin c3_out.length, ∃ j : Fin c3_out.length,
        (i : ℕ) < (j : ℕ) ∧ c3_out.get i = Chunk.str "set m" ∧ (c3_out.get j).isE12 = true)
    ∧ fmtE12 2 = "2.000000000000e0" := by
  refine ⟨?_, rfl, by simp [c3_out], by decide, ?_⟩
  · unfold AxisData.set_ticks
    simp [h]
  · rw [fmtE12]
    norm_num
    decide

/-- Witness for C3 at the concrete increment 0. -/
theorem c3_set_ticks_witness :
    ((0 : ℚ) ≤ 0)
    ∧ ((AxisData.new TickAxis.XTickAxis).set_ticks (some (.Fix 0, 7)) [] []
        = .error "incr must be positive") :=
  ⟨le_refl 0,
    (c3_set_ticks_amended (AxisData.new TickAxis.XTickAxis) 0 7 [] [] (le_refl 0)).1⟩

/-- C7, counterexample: the point clause of a directive fragment writes
the resolved point size with the plain `{}` Display format, not with
`{:.12e}`: the Points element built with `PointSize(2)` contains the
Display-formatted chunk `disp 2`, so not every floating-point directive
value is `{:.12e}`-formatted. -/
theorem c7_e12_counterexample :
    write_common_commands [] 0 0 PlotType.Points DataSourceType.Record false
        [PlotOption.PointSize 2] = .ok c7_out
    ∧ Chunk.disp 2 ∈ c7_out
    ∧ dispFloats c7_out = [2] :=
  ⟨rfl, by simp [c7_out], rfl⟩

/-- C7, amended: every floating-point value written into a directive
fragment by `write_common_commands` is `{:.12e}`-formatted except the
resolved point size, which the source writes with the plain `{}` Display
format; the tick buffers written by `set_ticks` contain no
Display-formatted float beyond a resolved label font size, and `set_pos`
adds only `{:.12e}`-formatted floats to the command buffer. -/
theorem c7_e12_amended :
    (∀ (args : Buf) (rows cols : ℕ) (pt : PlotType) (st : DataSourceType) (is3d : Bool)
        (opts : List PlotOption) (out : Buf),
        write_common_commands args rows cols pt st is3d opts = .ok out →
        dispFloats out = dispFloats args
          ++ (if pt.is_points then (firstOpt opts pointSizeSel).toList else []))
    ∧ (∀ (a : AxisData) (p : Option (AutoOption ℚ × ℕ)) (tos : List TickOption)
        (lo : List LabelOption) (a2 : AxisData),
        a.set_ticks p tos lo = .ok a2 →
        dispFloats a2.ticks_buf
          = (match p with
             | none => []
             | some _ => ((firstOpt lo fontSel).map fun q => q.2).toList))
    ∧ (∀ (a : AxesCommonData) (x y : ℚ),
        dispFloats (a.set_pos x y).commands = dispFloats a.commands) := by
  refine ⟨?_, ?_, ?_⟩
  · intro args rows cols pt st is3d opts out h
    rw [wcc_decomp] at h
    cases ht : directive_tail pt opts with
    | error e => rw [ht] at h; exact Except.noConfusion h
    | ok t =>
      rw [ht] at h
      simp only [Except.map, Except.ok.injEq] at h
      subst h
      simp [dispFloats_source_type_clause, directive_tail_disp pt opts t ht]
  · intro a p tos lo a2 h
    have hs := (set_ticks_ok_spec a p tos lo a2 h).2.2.2.2
    cases p <;> simpa using hs
  · intro a x y
    simp [AxesCommonData.set_pos]

/-- Witness for C7 at the Points element with `PointSize(2)` and at a
fresh X axis with hidden ticks. -/
theorem c7_e12_witness :
    (dispFloats c7_out = dispFloats []
      ++ (if PlotType.is_points PlotType.Points then
            (firstOpt [PlotOption.PointSize 2] pointSizeSel).toList else []))
    ∧ dispFloats c7_ax.ticks_buf = [] := by
  constructor
  · exact c7_e12_amended.1 [] 0 0 PlotType.Points DataSourceType.Record false
      [PlotOption.PointSize 2] c7_out rfl
  · simpa using c7_e12_amended.2.1 (AxisData.new .XTickAxis) none [] [] c7_ax rfl

end RustGnuplot
